import Mathlib

/-!
Verification of the o2_analyzer PLC / calibration / alarm core.

Shallow embedding of the JavaScript services:
* `calibrationService` (3-point calibration engine),
* `plcService` (protocol codec, LRC trailer, response decode, busy flag),
* `alarmService` (threshold alarm state machine with PLC feedback writes),
* `periodicPlcReader` (fixed-interval polling scheduler).

JavaScript numbers are idealised as exact rationals (`ℚ`), byte buffers as
`List Nat`, timestamps as natural numbers (milliseconds), and the Sequelize
record store as explicit in-memory lists threaded through each operation.
Fallible operations return `Except`/`Option`.
-/

/-! ## Calibration engine (calibrationService.js) -/

/-- Rounding used by JavaScript `toFixed`: round to the nearest integer,
ties away from zero (ECMA `toFixed` negates a negative argument first). -/
def jsRoundHalfAway (q : ℚ) : ℤ :=
  if q < 0 then -⌊-q + 1 / 2⌋ else ⌊q + 1 / 2⌋

/-- Model of `parseFloat(x.toFixed(6))`: round to 6 decimal places. -/
def round6 (q : ℚ) : ℚ :=
  (jsRoundHalfAway (q * 1000000) : ℚ) / 1000000

/-- Result record of `calculateCalibrationCoefficients` (the JS object also
echoes the three calibration points; only the derived numbers matter here). -/
structure Coefficients where
  slope : ℚ
  offset : ℚ
deriving DecidableEq, Repr

/-- Embedding of `calculateCalibrationCoefficients(zeroPointRaw, midPointRaw,
hundredPointRaw, midPointCalibrated)`: slope of the two fitted segments,
their arithmetic mean, and the offset anchored at the zero point, each
passed through `parseFloat(avg.toFixed(6))`. -/
def calculateCalibrationCoefficients
    (zeroPointRaw midPointRaw hundredPointRaw midPointCalibrated : ℚ) :
    Coefficients :=
  let slope1 := (midPointCalibrated - 0) / (midPointRaw - zeroPointRaw)
  let slope2 := (100 - midPointCalibrated) / (hundredPointRaw - midPointRaw)
  let avgSlope := (slope1 + slope2) / 2
  let offset := 0 - avgSlope * zeroPointRaw
  { slope := round6 avgSlope, offset := round6 offset }

/-- Embedding of `applyCalibration(rawValue, slope, offset)`:
`Math.max(0, Math.min(100, rawValue * slope + offset))`. -/
def applyCalibration (rawValue slope offset : ℚ) : ℚ :=
  max 0 (min 100 (rawValue * slope + offset))

/-- One `CalibrationPoints` row of the record store. -/
structure CalibrationRow where
  chamberId : Nat
  zeroPointRaw : ℚ
  midPointRaw : ℚ
  hundredPointRaw : ℚ
  midPointCalibrated : ℚ
  calibrationSlope : ℚ
  calibrationOffset : ℚ
  isActive : Bool
deriving DecidableEq, Repr

/-- Validation failures of `performThreePointCalibration`; both are thrown
before anything is computed or persisted. -/
inductive CalibrationError
  | missingPoints
  | outOfOrder
deriving DecidableEq, Repr

/-- Embedding of `performThreePointCalibration(chamberId, calibrationData)`.
The JS guard `if (!zeroPointRaw || !midPointRaw || !hundredPointRaw)` tests
truthiness, so a raw value equal to `0` is treated as missing; the second
guard rejects non-ascending triples.  On success the previously active rows
of the chamber are deactivated and the new row is appended. -/
def performThreePointCalibration (chamberId : Nat) (rows : List CalibrationRow)
    (zeroPointRaw midPointRaw hundredPointRaw midPointCalibrated : ℚ) :
    Except CalibrationError (List CalibrationRow × Coefficients) :=
  if zeroPointRaw = 0 ∨ midPointRaw = 0 ∨ hundredPointRaw = 0 then
    .error .missingPoints
  else if zeroPointRaw ≥ midPointRaw ∨ midPointRaw ≥ hundredPointRaw then
    .error .outOfOrder
  else
    let coefficients := calculateCalibrationCoefficients
      zeroPointRaw midPointRaw hundredPointRaw midPointCalibrated
    let deactivated := rows.map fun r =>
      if r.chamberId == chamberId && r.isActive then { r with isActive := false } else r
    let newRow : CalibrationRow :=
      { chamberId := chamberId
        zeroPointRaw := zeroPointRaw
        midPointRaw := midPointRaw
        hundredPointRaw := hundredPointRaw
        midPointCalibrated := midPointCalibrated
        calibrationSlope := coefficients.slope
        calibrationOffset := coefficients.offset
        isActive := true }
    .ok (deactivated ++ [newRow], coefficients)

/-- Claim C1: for every input with `zeroRaw < midRaw < hundredRaw`,
`computeCoefficients` returns the arithmetic mean of the two segment slopes
as slope and `0 - slope * zeroRaw` as offset, each rounded to 6 decimal
places; in particular `computeCoefficients(0, 5000, 23809.52, 21.0)` yields
a slope within ±0.0005 of 0.0042 and an offset within ±0.0005 of 0. -/
theorem calculateCalibrationCoefficients_spec
    (z m h c : ℚ) (_hzm : z < m) (_hmh : m < h) :
    (calculateCalibrationCoefficients z m h c).slope
        = round6 (((c - 0) / (m - z) + (100 - c) / (h - m)) / 2)
  ∧ (calculateCalibrationCoefficients z m h c).offset
        = round6 (0 - ((c - 0) / (m - z) + (100 - c) / (h - m)) / 2 * z)
  ∧ |(calculateCalibrationCoefficients 0 5000 (2380952 / 100) 21).slope - 42 / 10000|
        ≤ 5 / 10000
  ∧ |(calculateCalibrationCoefficients 0 5000 (2380952 / 100) 21).offset - 0|
        ≤ 5 / 10000 := by
  refine ⟨rfl, rfl, ?_, ?_⟩
  · norm_num [calculateCalibrationCoefficients, round6, jsRoundHalfAway]
  · norm_num [calculateCalibrationCoefficients, round6, jsRoundHalfAway]

/-- Witness for C1 at the documented example `(0, 5000, 23809.52, 21.0)`. -/
theorem calculateCalibrationCoefficients_spec_witness :
    (calculateCalibrationCoefficients 0 5000 (2380952 / 100) 21).slope
        = round6 ((((21 : ℚ) - 0) / (5000 - 0) + (100 - 21) / (2380952 / 100 - 5000)) / 2)
  ∧ |(calculateCalibrationCoefficients 0 5000 (2380952 / 100) 21).slope - 42 / 10000|
        ≤ 5 / 10000 :=
  ⟨(calculateCalibrationCoefficients_spec 0 5000 (2380952 / 100) 21
      (by norm_num) (by norm_num)).1,
   (calculateCalibrationCoefficients_spec 0 5000 (2380952 / 100) 21
      (by norm_num) (by norm_num)).2.2.1⟩

/-- Claim C4: the calibration operation fails with a validation error for
every triple with `zeroRaw ≥ midRaw` or `midRaw ≥ hundredRaw`; the error is
raised by the guards that run before coefficients are computed or any row is
persisted, so an error result carries no new state. -/
theorem performThreePointCalibration_rejects_unordered
    (chamberId : Nat) (rows : List CalibrationRow) (z m h c : ℚ)
    (hord : z ≥ m ∨ m ≥ h) :
    ∃ e : CalibrationError,
      performThreePointCalibration chamberId rows z m h c = .error e := by
  unfold performThreePointCalibration
  by_cases h0 : z = 0 ∨ m = 0 ∨ h = 0
  · rw [if_pos h0]
    exact ⟨.missingPoints, rfl⟩
  · rw [if_neg h0, if_pos hord]
    exact ⟨.outOfOrder, rfl⟩

/-- Witness for C4 at the reversed triple `(5000, 5000, 23809.52)`. -/
theorem performThreePointCalibration_rejects_unordered_witness :
    ∃ e : CalibrationError,
      performThreePointCalibration 1 [] 5000 5000 (2380952 / 100) 21 = .error e :=
  performThreePointCalibration_rejects_unordered 1 [] 5000 5000 (2380952 / 100) 21
    (Or.inl (by norm_num))

/-- Claim C10: because the presence guard tests truthiness, any payload in
which a raw calibration point equals `0` is rejected with the
"All calibration points are required" error — even a strictly ordered triple
whose zero point raw value is `0`, so such a triple can never be persisted
through this operation. -/
theorem performThreePointCalibration_zero_point_rejected
    (chamberId : Nat) (rows : List CalibrationRow) (z m h c : ℚ)
    (hzero : z = 0 ∨ m = 0 ∨ h = 0) :
    performThreePointCalibration chamberId rows z m h c = .error .missingPoints := by
  unfold performThreePointCalibration
  rw [if_pos hzero]

/-- Witness for C10: the strictly ordered documented triple `(0, 5000,
23809.52)` is still rejected as missing. -/
theorem performThreePointCalibration_zero_point_rejected_witness :
    (0 : ℚ) < 5000 ∧ (5000 : ℚ) < 2380952 / 100
  ∧ performThreePointCalibration 1 [] 0 5000 (2380952 / 100) 21
        = .error .missingPoints :=
  ⟨by norm_num, by norm_num,
   performThreePointCalibration_zero_point_rejected 1 [] 0 5000 (2380952 / 100) 21
     (Or.inl rfl)⟩

/-! ## Protocol codec (plcService.js) -/

/-- ASCII code of the lowercase hexadecimal digit for `n < 16`
(as produced by JavaScript `Number.prototype.toString(16)`). -/
def hexDigitChar (n : Nat) : Nat :=
  if n < 10 then 48 + n else 87 + n

/-- ASCII code of the uppercase hexadecimal digit for `n < 16`. -/
def upperHexDigitChar (n : Nat) : Nat :=
  if n < 10 then 48 + n else 55 + n

/-- Embedding of `calculateLRC(buf)`: the sum of all byte values masked with
`0xff` (the JS function renders it with `toString(16)`; the numeric value is
kept here and rendered by `lrcHexChars`). -/
def calculateLRC (buf : List Nat) : Nat :=
  buf.sum % 256

/-- ASCII codes of `n.toString(16)` for `n < 256`: one character below 16,
two characters otherwise — JavaScript does not zero-pad. -/
def lrcHexChars (n : Nat) : List Nat :=
  if n < 16 then [hexDigitChar n] else [hexDigitChar (n / 16), hexDigitChar (n % 16)]

/-- Appending the LRC trailer and the terminator `0x03` to a frame body.
The JS code reads `LRC[0]` and `LRC[1]` out of the rendered string; when the
LRC renders as a single character, `LRC[1]` is `undefined` and
`undefined.charCodeAt()` throws, so no frame is produced (`none`). -/
def appendLRC (bufA : List Nat) : Option (List Nat) :=
  match lrcHexChars (calculateLRC bufA) with
  | [c0, c1] => some (bufA ++ [c0, c1, 0x03])
  | _ => none

/-- The fixed 7-byte read-command header `0x02 '0' '1' '4' '6' '0' '2'`. -/
def readCommandHeader : List Nat :=
  [0x02, 0x30, 0x31, 0x34, 0x36, 0x30, 0x32]

/-- The fixed read register address, the ASCII bytes of `"R02100"`. -/
def readRegisterAddress : List Nat :=
  [0x52, 0x30, 0x32, 0x31, 0x30, 0x30]

/-- The read-registers request frame built by `readRawValues`. -/
def buildReadFrame : Option (List Nat) :=
  appendLRC (readCommandHeader ++ readRegisterAddress)

/-- The fixed 7-byte write-command header `0x02 '0' '1' '4' '7' '0' '1'`. -/
def writeCommandHeader : List Nat :=
  [0x02, 0x30, 0x31, 0x34, 0x37, 0x30, 0x31]

/-- Embedding of `d2h(value).toUpperCase()`:
`('0000' + value.toString(16)).slice(-4)` — the four uppercase hex
characters of `value mod 2^16`, big-endian. -/
def d2h (value : Nat) : List Nat :=
  [upperHexDigitChar (value / 4096 % 16), upperHexDigitChar (value / 256 % 16),
   upperHexDigitChar (value / 16 % 16), upperHexDigitChar (value % 16)]

/-- The write-register request frame built by `writeData(registerAddress,
value)`: header, ASCII address bytes, 4-hex-digit value, LRC, terminator. -/
def buildWriteFrame (addr : List Nat) (value : Nat) : Option (List Nat) :=
  appendLRC (writeCommandHeader ++ addr ++ d2h value)

/-- The property claimed of every built frame: the two bytes before the
terminator `0x03` are the 2-character lowercase hexadecimal rendering of the
sum of all preceding bytes modulo 256. -/
def twoCharLowercaseHexLRC (frame : List Nat) : Prop :=
  ∃ body : List Nat,
    frame = body ++
      [hexDigitChar (body.sum % 256 / 16), hexDigitChar (body.sum % 256 % 16), 0x03]

/-- Any frame `appendLRC` actually produces carries a valid two-character
lowercase hex LRC over its body. -/
theorem appendLRC_sound (bufA frame : List Nat) (h : appendLRC bufA = some frame) :
    twoCharLowercaseHexLRC frame := by
  refine ⟨bufA, ?_⟩
  unfold appendLRC lrcHexChars calculateLRC at h
  split at h
  · rename_i c0 c1 heq
    split at heq
    · simp at heq
    · simp only [List.cons.injEq, and_true] at heq
      obtain ⟨h0, h1⟩ := heq
      subst h0
      subst h1
      simp only [Option.some.injEq] at h
      exact h.symm
  · simp at h

/-- Claim C5: every request frame the codec builds — the read-registers
frame, and the write-register frame for any register address and value —
ends in the 2-character lowercase hex LRC of all preceding bytes modulo 256,
followed by the terminator `0x03`. -/
theorem builtFrames_lrc_valid :
    (∀ frame, buildReadFrame = some frame → twoCharLowercaseHexLRC frame)
  ∧ (∀ addr value frame, buildWriteFrame addr value = some frame →
      twoCharLowercaseHexLRC frame) :=
  ⟨fun _ h => appendLRC_sound _ _ h, fun _ _ _ h => appendLRC_sound _ _ h⟩

/-- Witness for C5: the fixed read frame (LRC `0x74`, rendered `"74"`), and
the write frame for register `"M00407"` and value 1 (LRC `0x38`, `"38"`). -/
theorem builtFrames_lrc_valid_witness :
    twoCharLowercaseHexLRC
      (readCommandHeader ++ readRegisterAddress ++ [0x37, 0x34, 0x03])
  ∧ twoCharLowercaseHexLRC
      (writeCommandHeader ++ [0x4d, 0x30, 0x30, 0x34, 0x30, 0x37] ++
        d2h 1 ++ [0x33, 0x38, 0x03]) :=
  ⟨builtFrames_lrc_valid.1 _ (by decide),
   builtFrames_lrc_valid.2 [0x4d, 0x30, 0x30, 0x34, 0x30, 0x37] 1 _ (by decide)⟩

/-! ## Response decoding (plcService.js, `client.on('data')` handler) -/

/-- The fixed 4-byte response signature `0x02 '0' '1' '4'` the handler
compares against the first four inbound bytes. -/
def responseSignature : List Nat :=
  [0x02, 0x30, 0x31, 0x34]

/-- Value of one ASCII hexadecimal digit, as accepted by `parseInt(s, 16)`. -/
def parseHexDigit (c : Nat) : Option Nat :=
  if 48 ≤ c ∧ c ≤ 57 then some (c - 48)
  else if 97 ≤ c ∧ c ≤ 102 then some (c - 87)
  else if 65 ≤ c ∧ c ≤ 70 then some (c - 55)
  else none

/-- Accumulating phase of `parseInt(s, 16)`: consume hexadecimal digits
until the first non-digit character. -/
def parseIntHexAux : List Nat → Nat → Nat
  | [], acc => acc
  | c :: rest, acc =>
    match parseHexDigit c with
    | some d => parseIntHexAux rest (acc * 16 + d)
    | none => acc

/-- Embedding of `parseInt(s, 16)` on ASCII codes: `none` models `NaN`
(empty string or a leading non-hex character). -/
def parseIntHex (chars : List Nat) : Option Nat :=
  match chars with
  | [] => none
  | c :: _ =>
    match parseHexDigit c with
    | none => none
    | some _ => some (parseIntHexAux chars 0)

/-- Embedding of the response decode: when the first 4 bytes equal the
signature, the payload `data.slice(6, data.length - 3)` is parsed as a run
of 4-hex-digit groups (the loop bound `buff.length / 4` is a JS float, so a
trailing partial group is still visited); otherwise nothing is parsed and
the sample set stays empty. -/
def decodeResponse (data : List Nat) : List (Option Nat) :=
  if data.take 4 = responseSignature then
    let payload := (data.drop 6).take (data.length - 9)
    (List.range ((payload.length + 3) / 4)).map
      fun i => parseIntHex ((payload.drop (4 * i)).take 4)
  else []

/-- Embedding of the response-wait loop of `readRawValues`: the 50ms
interval inspects `sensorData` repeatedly; the first non-empty sample set is
returned, and if every poll sees an empty set the 1000ms timer rejects. -/
def readResponseWait (polls : List (List (Option Nat))) :
    Except String (List (Option Nat)) :=
  match polls.find? (fun p => decide (0 < p.length)) with
  | some p => .ok p
  | none => .error "Read operation timeout"

/-- Claim C6: decoding is total and, for every inbound byte sequence whose
first 4 bytes differ from the fixed signature, yields zero samples rather
than an error; the sample set then stays empty on every poll, so the read
call fails only by its response-wait timeout. -/
theorem decodeResponse_bad_signature (data : List Nat)
    (h : data.take 4 ≠ responseSignature) :
    decodeResponse data = []
  ∧ ∀ n : Nat, readResponseWait (List.replicate n (decodeResponse data))
      = .error "Read operation timeout" := by
  have hdec : decodeResponse data = [] := by
    unfold decodeResponse
    rw [if_neg h]
  refine ⟨hdec, fun n => ?_⟩
  rw [hdec]
  unfold readResponseWait
  have hfind : (List.replicate n ([] : List (Option Nat))).find?
      (fun p => decide (0 < p.length)) = none := by
    induction n with
    | zero => rfl
    | succ k ih =>
      rw [List.replicate_succ, List.find?]
      simpa using ih
  rw [hfind]

/-- Witness for C6 at the all-zero inbound frame `[0, 0, 0, 0]`. -/
theorem decodeResponse_bad_signature_witness :
    decodeResponse [0, 0, 0, 0] = []
  ∧ readResponseWait (List.replicate 20 (decodeResponse [0, 0, 0, 0]))
      = .error "Read operation timeout" :=
  ⟨(decodeResponse_bad_signature [0, 0, 0, 0] (by decide)).1,
   (decodeResponse_bad_signature [0, 0, 0, 0] (by decide)).2 20⟩

/-! ## Register service concurrency guard (plcService.js) -/

/-- The slice of `PLCService` state the busy guard reads: the demo-mode flag
fixed at startup and the single `isWorking` operation-in-progress flag. -/
structure PLCGuardState where
  demo : Bool
  isWorking : Bool
deriving DecidableEq, Repr

/-- How a `readRawValues` call gets past its guards: demo mode returns
simulated data, a set `isWorking` flag throws the busy error
(`'PLC operation already in progress'`), otherwise the exchange proceeds. -/
inductive ReadGateResult
  | demoData
  | busyError
  | proceed
deriving DecidableEq, Repr

/-- Embedding of the entry guards of `readRawValues`. -/
def readRawValuesGate (s : PLCGuardState) : ReadGateResult :=
  if s.demo then .demoData
  else if s.isWorking then .busyError
  else .proceed

/-- Embedding of the `while (this.isWorking) await sleep(50)` loop of
`writeData`: `flags` is the sequence of `isWorking` values observed at
successive 50ms polls; the loop exits at the first `false` observation and
is still spinning (`none`) if the trace ends while the flag is set. -/
def writeWaitLoop : List Bool → Option Unit
  | [] => none
  | b :: rest => if b then writeWaitLoop rest else some ()

/-- Embedding of `writeData` past demo mode: wait for the busy flag to
clear, then build and send the write frame. -/
def writeDataOp (flags : List Bool) (addr : List Nat) (value : Nat) :
    Option (List Nat) :=
  match writeWaitLoop flags with
  | none => none
  | some _ => buildWriteFrame addr value

/-- The wait loop exits as soon as some poll observes the flag clear. -/
theorem writeWaitLoop_completes (flags : List Bool) (h : false ∈ flags) :
    writeWaitLoop flags = some () := by
  induction flags with
  | nil => cases h
  | cons b rest ih =>
    cases b with
    | false => rfl
    | true =>
      have hrest : false ∈ rest := by simpa using h
      simpa [writeWaitLoop] using ih hrest

/-- Claim C7: while a read is outstanding (`isWorking` set, demo mode off) a
second `readRawValues` call fails immediately with the busy error rather
than queuing, whereas a `writeData` call issued under the same condition
polls the flag and proceeds with its write once some poll observes the
outstanding read finished. -/
theorem read_busy_write_waits :
    (∀ s : PLCGuardState, s.demo = false → s.isWorking = true →
      readRawValuesGate s = .busyError)
  ∧ (∀ (flags : List Bool) (addr : List Nat) (value : Nat), false ∈ flags →
      writeDataOp flags addr value = buildWriteFrame addr value) := by
  constructor
  · intro s hdemo hwork
    unfold readRawValuesGate
    rw [hdemo, hwork]
    rfl
  · intro flags addr value h
    unfold writeDataOp
    rw [writeWaitLoop_completes flags h]

/-- Witness for C7: a busy non-demo state rejects the read, and a write
that first observes the flag set and then clear proceeds to its frame. -/
theorem read_busy_write_waits_witness :
    readRawValuesGate { demo := false, isWorking := true } = .busyError
  ∧ writeDataOp [true, true, false] [0x4d, 0x30, 0x30, 0x34, 0x30, 0x37] 1
      = buildWriteFrame [0x4d, 0x30, 0x30, 0x34, 0x30, 0x37] 1 :=
  ⟨read_busy_write_waits.1 _ rfl rfl,
   read_busy_write_waits.2 [true, true, false] _ 1 (by decide)⟩

/-! ## Alarm state machine (alarmService.js) -/

/-- The four alarm kinds of the `Alarm` model. -/
inductive AlarmType
  | high_o2
  | low_o2
  | sensor_error
  | calibration_due
deriving DecidableEq, Repr

/-- One `Alarm` row of the record store, with the model defaults
`isActive = true`, `isMuted = false`. -/
structure AlarmRow where
  id : Nat
  chamberId : Nat
  alarmType : AlarmType
  isActive : Bool
  isMuted : Bool
  mutedUntil : Option Nat
  triggeredAt : Nat
  resolvedAt : Option Nat
  o2LevelWhenTriggered : Option ℚ
deriving DecidableEq, Repr

/-- The alarm table plus the auto-increment counter for fresh primary keys. -/
structure AlarmDB where
  rows : List AlarmRow
  nextId : Nat
deriving DecidableEq, Repr

/-- The per-chamber `ChamberSettings` fields the alarm evaluation reads. -/
structure Settings where
  alarmLevelHigh : ℚ
  alarmLevelLow : ℚ
  isCalibrationRequired : Bool
deriving DecidableEq, Repr

/-- Sensor status fed to the evaluation; `error` matches the JS string
comparison `sensorStatus === 'error'`. -/
inductive SensorStatus
  | normal
  | error
deriving DecidableEq, Repr

/-- Embedding of `getAlarmRegister(chamberId)`: chamber 1 and 2 map to their
dedicated PLC alarm registers, other chambers to `null`. -/
def getAlarmRegister (chamberId : Nat) : Option String :=
  if chamberId == 1 then some "M00407"
  else if chamberId == 2 then some "M00408"
  else none

/-- Embedding of `sendAlarmToPLC(chamberId, value)`: one `writeBit` feedback
write when the chamber has a register, none otherwise. -/
def sendAlarmToPLC (chamberId : Nat) (value : Nat) : List (String × Nat) :=
  match getAlarmRegister chamberId with
  | some r => [(r, value)]
  | none => []

/-- The `Alarm.findOne({chamberId, alarmType, isActive: true})` predicate. -/
def isActiveOfKind (cid : Nat) (t : AlarmType) (a : AlarmRow) : Bool :=
  a.chamberId == cid && a.alarmType == t && a.isActive

/-- Embedding of `Alarm.findOne({where: {chamberId, alarmType,
isActive: true}})`. -/
def findActiveAlarm (rows : List AlarmRow) (cid : Nat) (t : AlarmType) :
    Option AlarmRow :=
  rows.find? (isActiveOfKind cid t)

/-- Embedding of `Alarm.create({...})` during detection: a fresh row with the
model defaults, recording the triggering O2 level when applicable. -/
def createAlarm (db : AlarmDB) (cid : Nat) (t : AlarmType) (o2 : Option ℚ)
    (now : Nat) : AlarmDB :=
  let a : AlarmRow :=
    { id := db.nextId
      chamberId := cid
      alarmType := t
      isActive := true
      isMuted := false
      mutedUntil := none
      triggeredAt := now
      resolvedAt := none
      o2LevelWhenTriggered := o2 }
  { rows := db.rows ++ [a]
    nextId := db.nextId + 1 }

/-- One detection block of `checkForAlarms`: when its condition holds and no
active alarm of the kind exists, create one and (for the O2 kinds) send the
PLC trigger write `1`. -/
def checkKind (cond : Prop) [Decidable cond] (cid : Nat) (t : AlarmType)
    (o2 : Option ℚ) (plcFeedback : Bool) (now : Nat)
    (st : AlarmDB × List (String × Nat)) : AlarmDB × List (String × Nat) :=
  if cond then
    match findActiveAlarm st.1.rows cid t with
    | some _ => st
    | none =>
      (createAlarm st.1 cid t o2 now,
       st.2 ++ (if plcFeedback then sendAlarmToPLC cid 1 else []))
  else st

/-- Embedding of `checkForAlarms(chamberId, o2Level, sensorStatus)`: missing
settings abort the evaluation; otherwise the four detection blocks run in
source order.  Only the high/low O2 kinds issue a PLC feedback write. -/
def checkForAlarms (db : AlarmDB) (cid : Nat) (o2 : ℚ) (status : SensorStatus)
    (settings : Option Settings) (now : Nat) : AlarmDB × List (String × Nat) :=
  match settings with
  | none => (db, [])
  | some s =>
    let st := (db, ([] : List (String × Nat)))
    let st := checkKind (o2 > s.alarmLevelHigh) cid .high_o2 (some o2) true now st
    let st := checkKind (o2 < s.alarmLevelLow) cid .low_o2 (some o2) true now st
    let st := checkKind (status = .error) cid .sensor_error none false now st
    let st := checkKind (s.isCalibrationRequired = true) cid .calibration_due none false now st
    st

/-- Embedding of `alarm.update({isActive: false, resolvedAt: new Date()})`
applied to the row with the given primary key. -/
def deactivateRow (rows : List AlarmRow) (aid : Nat) (now : Nat) : List AlarmRow :=
  rows.map fun r =>
    if r.id == aid then { r with isActive := false, resolvedAt := some now } else r

/-- One resolution block of `resolveAlarms`: when its condition holds and an
active alarm of the kind exists, deactivate it and (for the O2 kinds) send
the PLC clear write `0`. -/
def resolveKind (cond : Prop) [Decidable cond] (cid : Nat) (t : AlarmType)
    (plcFeedback : Bool) (now : Nat)
    (st : AlarmDB × List (String × Nat)) : AlarmDB × List (String × Nat) :=
  if cond then
    match findActiveAlarm st.1.rows cid t with
    | some a =>
      ({ st.1 with rows := deactivateRow st.1.rows a.id now },
       st.2 ++ (if plcFeedback then sendAlarmToPLC cid 0 else []))
    | none => st
  else st

/-- Embedding of `resolveAlarms(chamberId, o2Level, sensorStatus)`. -/
def resolveAlarms (db : AlarmDB) (cid : Nat) (o2 : ℚ) (status : SensorStatus)
    (settings : Option Settings) (now : Nat) : AlarmDB × List (String × Nat) :=
  match settings with
  | none => (db, [])
  | some s =>
    let st := (db, ([] : List (String × Nat)))
    let st := resolveKind (o2 ≤ s.alarmLevelHigh) cid .high_o2 true now st
    let st := resolveKind (o2 ≥ s.alarmLevelLow) cid .low_o2 true now st
    let st := resolveKind (status ≠ .error) cid .sensor_error false now st
    let st := resolveKind (s.isCalibrationRequired = false) cid .calibration_due false now st
    st

/-- Feeding one calibrated reading to the alarm state machine: the reading
pipeline runs detection and then resolution on the stored alarms,
accumulating the PLC feedback writes both issue. -/
def processReading (db : AlarmDB) (cid : Nat) (o2 : ℚ) (status : SensorStatus)
    (settings : Option Settings) (now : Nat) : AlarmDB × List (String × Nat) :=
  let c := checkForAlarms db cid o2 status settings now
  let r := resolveAlarms c.1 cid o2 status settings now
  (r.1, c.2 ++ r.2)

/-- Number of active alarm rows of one (chamber, kind) pair. -/
def activeCount (rows : List AlarmRow) (cid : Nat) (t : AlarmType) : Nat :=
  (rows.filter (isActiveOfKind cid t)).length

/-- The claimed invariant: at most one active alarm row per
(chamberId, alarmType) pair. -/
def AtMostOneActive (rows : List AlarmRow) : Prop :=
  ∀ cid t, activeCount rows cid t ≤ 1

/-- A search that found no active row of the kind means its active count
is zero. -/
theorem findActiveAlarm_none_activeCount (rows : List AlarmRow) (cid : Nat)
    (t : AlarmType) (h : findActiveAlarm rows cid t = none) :
    activeCount rows cid t = 0 := by
  unfold findActiveAlarm at h
  unfold activeCount
  rw [List.length_eq_zero, List.filter_eq_nil_iff]
  intro a ha
  exact List.find?_eq_none.mp h a ha

/-- Appending one row adds to a pair's active count exactly when the new row
is an active row of that pair. -/
theorem activeCount_append_single (rows : List AlarmRow) (a : AlarmRow)
    (cid : Nat) (t : AlarmType) :
    activeCount (rows ++ [a]) cid t
      = activeCount rows cid t + (if isActiveOfKind cid t a then 1 else 0) := by
  by_cases hpa : isActiveOfKind cid t a <;>
    simp [activeCount, List.filter_append, List.filter_cons, hpa]

/-- `createAlarm` increments exactly the created pair's active count. -/
theorem activeCount_createAlarm (db : AlarmDB) (cid : Nat) (t : AlarmType)
    (o2 : Option ℚ) (now : Nat) (cid' : Nat) (t' : AlarmType) :
    activeCount (createAlarm db cid t o2 now).rows cid' t'
      = activeCount db.rows cid' t' + (if cid = cid' ∧ t = t' then 1 else 0) := by
  unfold createAlarm
  rw [activeCount_append_single]
  congr 1
  by_cases hc : cid = cid' <;> by_cases ht : t = t' <;>
    simp [isActiveOfKind, hc, ht]

/-- Each detection block preserves the at-most-one-active invariant: it only
creates a row after `findActiveAlarm` returned `none` for that pair. -/
theorem checkKind_preserves (cond : Prop) [Decidable cond] (cid : Nat)
    (t : AlarmType) (o2 : Option ℚ) (fb : Bool) (now : Nat)
    (st : AlarmDB × List (String × Nat)) (h : AtMostOneActive st.1.rows) :
    AtMostOneActive (checkKind cond cid t o2 fb now st).1.rows := by
  unfold checkKind
  split
  · split
    · exact h
    · rename_i heq
      intro cid' t'
      rw [show ((createAlarm st.1 cid t o2 now,
          st.2 ++ (if fb then sendAlarmToPLC cid 1 else [])) :
          AlarmDB × List (String × Nat)).1 = createAlarm st.1 cid t o2 now from rfl,
        activeCount_createAlarm]
      by_cases hct : cid = cid' ∧ t = t'
      · rw [if_pos hct]
        obtain ⟨hc, ht⟩ := hct
        subst hc
        subst ht
        rw [findActiveAlarm_none_activeCount _ _ _ heq]
      · rw [if_neg hct]
        simpa using h cid' t'
  · exact h

/-- Claim C2: the detection step creates an alarm of a kind only when no
active alarm of that (chamberId, alarmType) pair exists, so it preserves the
invariant that at most one active alarm row exists per pair — in particular
processing the same breach twice in a row cannot create a second active
row. -/
theorem checkForAlarms_at_most_one_active (db : AlarmDB) (cid : Nat) (o2 : ℚ)
    (status : SensorStatus) (settings : Option Settings) (now : Nat)
    (h : AtMostOneActive db.rows) :
    AtMostOneActive (checkForAlarms db cid o2 status settings now).1.rows := by
  unfold checkForAlarms
  match settings with
  | none => exact h
  | some s =>
    exact checkKind_preserves _ _ _ _ _ _ _
      (checkKind_preserves _ _ _ _ _ _ _
        (checkKind_preserves _ _ _ _ _ _ _
          (checkKind_preserves _ _ _ _ _ _ _ h)))

/-- Witness for C2: a high-O2 breach processed twice in a row starting from
an empty table still satisfies the invariant. -/
theorem checkForAlarms_at_most_one_active_witness :
    AtMostOneActive (checkForAlarms
      (checkForAlarms { rows := [], nextId := 0 } 1 25 .normal
        (some { alarmLevelHigh := 24, alarmLevelLow := 16,
                isCalibrationRequired := false }) 0).1
      1 25 .normal
      (some { alarmLevelHigh := 24, alarmLevelLow := 16,
              isCalibrationRequired := false }) 1).1.rows :=
  checkForAlarms_at_most_one_active _ 1 25 .normal _ 1
    (checkForAlarms_at_most_one_active _ 1 25 .normal _ 0
      (fun _ _ => Nat.zero_le 1))

/-- Settings of scenario C3: alarmLevelHigh 24.0, alarmLevelLow 16.0. -/
def scenarioSettings : Settings :=
  { alarmLevelHigh := 24
    alarmLevelLow := 16
    isCalibrationRequired := false }

/-- An empty alarm table. -/
def emptyAlarmDB : AlarmDB :=
  { rows := []
    nextId := 0 }

/-- The single high-O2 alarm row created in scenario C3 by the 25.0 reading
(timestamp 2), with the triggering O2 level recorded. -/
def scenarioTriggeredRow : AlarmRow :=
  { id := 0
    chamberId := 1
    alarmType := .high_o2
    isActive := true
    isMuted := false
    mutedUntil := none
    triggeredAt := 2
    resolvedAt := none
    o2LevelWhenTriggered := some 25 }

/-- Claim C3: with alarmLevelHigh 24.0 and alarmLevelLow 16.0, the reading
20.0 produces no alarm; 25.0 creates exactly one active high-O2 alarm
recording 25.0 and writes 1 to the chamber's PLC alarm register; 23.0
resolves the alarm (active cleared, resolvedAt set) and writes 0 to the same
register.  The two final conjuncts show the boundary reading 24.0: it
resolves an active alarm (resolution fires at `o2Level ≤ alarmLevelHigh`)
but triggers nothing (triggering needs strictly
`o2Level > alarmLevelHigh`). -/
theorem alarm_scenario_high_o2 :
    (processReading emptyAlarmDB 1 20 .normal (some scenarioSettings) 1
      = (emptyAlarmDB, []))
  ∧ (processReading emptyAlarmDB 1 25 .normal (some scenarioSettings) 2
      = ({ rows := [scenarioTriggeredRow], nextId := 1 }, [("M00407", 1)]))
  ∧ (processReading { rows := [scenarioTriggeredRow], nextId := 1 } 1 23 .normal
        (some scenarioSettings) 3
      = ({ rows := [{ scenarioTriggeredRow with isActive := false, resolvedAt := some 3 }],
           nextId := 1 }, [("M00407", 0)]))
  ∧ (processReading { rows := [scenarioTriggeredRow], nextId := 1 } 1 24 .normal
        (some scenarioSettings) 3
      = ({ rows := [{ scenarioTriggeredRow with isActive := false, resolvedAt := some 3 }],
           nextId := 1 }, [("M00407", 0)]))
  ∧ (processReading emptyAlarmDB 1 24 .normal (some scenarioSettings) 1
      = (emptyAlarmDB, [])) := by
  refine ⟨?_, ?_, ?_, ?_, ?_⟩ <;>
  · norm_num [processReading, checkForAlarms, resolveAlarms, checkKind, resolveKind,
      findActiveAlarm, createAlarm, deactivateRow, sendAlarmToPLC, getAlarmRegister,
      isActiveOfKind, List.find?, scenarioSettings, emptyAlarmDB, scenarioTriggeredRow]
    all_goals decide

/-! ## Manual alarm operations (alarmService.js) -/

/-- Failure of the manual alarm operations: `Alarm.findByPk` found no row. -/
inductive AlarmOpError
  | notFound
deriving DecidableEq, Repr

/-- Embedding of `Alarm.findByPk(alarmId)`. -/
def findAlarmById (rows : List AlarmRow) (alarmId : Nat) : Option AlarmRow :=
  rows.find? fun a => a.id == alarmId

/-- Embedding of `muteAlarm(alarmId, mutedUntil)`: set `isMuted` and
`mutedUntil` (defaulting to one hour — 3600000 ms — past `now` when the
argument is omitted), leave every other field alone, and send the PLC clear
write `0` for the alarm's chamber; `Alarm not found` when the id misses. -/
def muteAlarm (db : AlarmDB) (alarmId : Nat) (mutedUntil : Option Nat)
    (now : Nat) : Except AlarmOpError (AlarmDB × List (String × Nat)) :=
  match findAlarmById db.rows alarmId with
  | none => .error .notFound
  | some a =>
    .ok ({ db with rows := db.rows.map fun r =>
            if r.id == alarmId then
              { r with isMuted := true, mutedUntil := some (mutedUntil.getD (now + 3600000)) }
            else r },
         sendAlarmToPLC a.chamberId 0)

/-- Embedding of the manual `resolveAlarm(alarmId)`: clear `isActive`, set
`resolvedAt`, and send the same PLC clear write `0`. -/
def resolveAlarm (db : AlarmDB) (alarmId : Nat) (now : Nat) :
    Except AlarmOpError (AlarmDB × List (String × Nat)) :=
  match findAlarmById db.rows alarmId with
  | none => .error .notFound
  | some a =>
    .ok ({ db with rows := db.rows.map fun r =>
            if r.id == alarmId then
              { r with isActive := false, resolvedAt := some now }
            else r },
         sendAlarmToPLC a.chamberId 0)

/-- Claim C8: `muteAlarm` sets `isMuted` and `mutedUntil` (one hour past now
by default), leaves every other field — in particular `isActive` — and the
auto-increment state unchanged, and issues exactly the PLC clear write of
value 0 that `resolveAlarm` issues for the same alarm; a missing alarm id
fails with the not-found error. -/
theorem muteAlarm_spec (db : AlarmDB) (alarmId : Nat) (mu : Option Nat)
    (now now2 : Nat) :
    (findAlarmById db.rows alarmId = none →
      muteAlarm db alarmId mu now = .error .notFound)
  ∧ (∀ a, findAlarmById db.rows alarmId = some a →
      muteAlarm db alarmId mu now = .ok
        ({ db with rows := db.rows.map fun r =>
            if r.id == alarmId then
              { r with isMuted := true, mutedUntil := some (mu.getD (now + 3600000)) }
            else r },
         sendAlarmToPLC a.chamberId 0)
      ∧ (muteAlarm db alarmId mu now).map Prod.snd
          = (resolveAlarm db alarmId now2).map Prod.snd) := by
  constructor
  · intro h
    unfold muteAlarm
    rw [h]
  · intro a h
    constructor
    · unfold muteAlarm
      rw [h]
    · unfold muteAlarm resolveAlarm
      rw [h]
      rfl

/-- Witness for C8: muting alarm 0 of a one-row table mutes it in place with
the default one-hour horizon and issues the chamber-1 clear write, matching
the resolution's write; a missing id is rejected. -/
theorem muteAlarm_spec_witness :
    (muteAlarm emptyAlarmDB 5 none 0 = .error .notFound)
  ∧ (muteAlarm { rows := [scenarioTriggeredRow], nextId := 1 } 0 none 100
      = .ok ({ rows := [{ scenarioTriggeredRow with
                isMuted := true, mutedUntil := some 3600100 }], nextId := 1 },
             [("M00407", 0)])) := by
  constructor
  · exact (muteAlarm_spec emptyAlarmDB 5 none 0 0).1 (by decide)
  · have h := ((muteAlarm_spec { rows := [scenarioTriggeredRow], nextId := 1 }
      0 none 100 0).2 scenarioTriggeredRow (by decide)).1
    rw [h]
    simp [scenarioTriggeredRow, sendAlarmToPLC, getAlarmRegister]

/-! ## Polling scheduler (periodicPlcReader.js) -/

/-- The scheduler state of `PeriodicPLCReader`: running flag, period,
whether the interval timer is installed (`intervalId !== null`), and the
success / failure cycle counters. -/
structure ReaderState where
  isRunning : Bool
  interval : Nat
  timerSet : Bool
  successfulReads : Nat
  failedReads : Nat
deriving DecidableEq, Repr

/-- The constructor state: stopped, 500ms period, no timer, zero counters. -/
def initialReaderState : ReaderState :=
  { isRunning := false
    interval := 500
    timerSet := false
    successfulReads := 0
    failedReads := 0 }

/-- Embedding of one `readAndUpdateChambers` cycle, as a function of whether
`plcService.readRawValues` reported success.  `readRawValues` catches its
own exceptions and returns `{success: false}`, so a failed cycle only
increments the failure counter and returns — no retry inside the cycle and
no exception escapes; a successful cycle increments the success counter (and
then fans out the per-chamber updates, which no claim observes). -/
def readAndUpdateChambers (s : ReaderState) (readSuccess : Bool) : ReaderState :=
  if readSuccess then { s with successfulReads := s.successfulReads + 1 }
  else { s with failedReads := s.failedReads + 1 }

/-- Embedding of `start()`: a warning-only no-op while running; otherwise
set the running flag, install the fixed-period timer, and fire one immediate
cycle (whose read outcome is `firstReadSuccess`). -/
def start (s : ReaderState) (firstReadSuccess : Bool) : ReaderState :=
  if s.isRunning then s
  else readAndUpdateChambers
    { s with isRunning := true, timerSet := true } firstReadSuccess

/-- Claim C9: `start()` is idempotent (a running scheduler is left exactly
as it is); a fresh start uses the default 500ms period, installs the timer,
and fires one immediate cycle; every cycle whose read fails increments only
the failure counter and returns (totally — no exception propagates); after
two consecutive failed cycles from a fresh start the failure counter is 2
and the success counter is 0. -/
theorem periodic_reader_start_and_failures :
    (∀ (s : ReaderState) (r : Bool), s.isRunning = true → start s r = s)
  ∧ (initialReaderState.interval = 500
      ∧ ∀ r : Bool, (start initialReaderState r).isRunning = true
          ∧ (start initialReaderState r).timerSet = true
          ∧ (start initialReaderState r).interval = 500
          ∧ (start initialReaderState r).successfulReads
              + (start initialReaderState r).failedReads = 1)
  ∧ (∀ s : ReaderState, readAndUpdateChambers s false
      = { s with failedReads := s.failedReads + 1 })
  ∧ (readAndUpdateChambers (start initialReaderState false) false
      = { initialReaderState with
            isRunning := true, timerSet := true, failedReads := 2 }) := by
  refine ⟨?_, ⟨rfl, ?_⟩, ?_, ?_⟩
  · intro s r h
    unfold start
    rw [if_pos h]
  · intro r
    cases r <;> exact ⟨rfl, rfl, rfl, rfl⟩
  · intro s
    rfl
  · rfl

/-- Witness for C9: a running scheduler state is returned unchanged by
`start`, and the two-consecutive-failures state is reached concretely. -/
theorem periodic_reader_start_and_failures_witness :
    start { isRunning := true, interval := 500, timerSet := true,
            successfulReads := 3, failedReads := 4 } true
      = { isRunning := true, interval := 500, timerSet := true,
          successfulReads := 3, failedReads := 4 }
  ∧ readAndUpdateChambers (start initialReaderState false) false
      = { initialReaderState with
            isRunning := true, timerSet := true, failedReads := 2 } :=
  ⟨periodic_reader_start_and_failures.1 _ true rfl,
   periodic_reader_start_and_failures.2.2.2⟩
